import Mathlib

/-!
Verification of the `cheap-gpt` backend (files `providers.py`,
`llm_router.py`, `fastapi_llm.py`) as a shallow embedding in Lean 4.
Pure functions of the source become Lean functions; the process
environment, the external model calls and the database table become
explicit parameters (an `Option String` for an environment variable, an
oracle function for a provider call, a list of rows for the table).
-/

/-- `ModelConfig` dataclass of `providers.py`. -/
structure ModelConfig where
  id : String
  name : String
  description : String
  max_tokens : Nat := 8192
  best_for : String := "general"
  deriving Repr, DecidableEq

/-- `GEMINI_MODELS` dict of `providers.py`, as an association list in the
dict's insertion order. -/
def GEMINI_MODELS : List (String × ModelConfig) :=
  [ ("gemini-2.5-flash",
      { id := "gemini-2.5-flash", name := "Gemini 2.5 Flash",
        description := "Balanced speed and quality",
        max_tokens := 8192, best_for := "general" }),
    ("gemini-2.5-flash-lite",
      { id := "gemini-2.5-flash-lite", name := "Gemini 2.5 Flash Lite",
        description := "Fastest responses, good for simple queries",
        max_tokens := 4096, best_for := "fast" }),
    ("gemma-3-4b",
      { id := "gemma-3-4b", name := "Gemma 3 4B",
        description := "Lightweight model for quick responses",
        max_tokens := 4096, best_for := "fast" }),
    ("gemma-3-1b",
      { id := "gemma-3-1b", name := "Gemma 3 1B",
        description := "Ultra-lightweight, fastest option",
        max_tokens := 2048, best_for := "fast" }) ]

/-- Keys of the `GEMINI_MODELS` dict in insertion order (the model
catalog's ids). -/
def geminiModelIds : List String := GEMINI_MODELS.map Prod.fst

/-- `DEFAULT_MODEL` constant of `providers.py`. -/
def DEFAULT_MODEL : String := "gemini-2.5-flash"

/-- `MODEL_ROUTING` dict of `providers.py`: category -> default model id. -/
def MODEL_ROUTING : List (String × String) :=
  [ ("fast", "gemini-2.5-flash-lite"),
    ("general", "gemini-2.5-flash"),
    ("code", "gemini-2.5-flash"),
    ("creative", "gemini-2.5-flash") ]

/-- Dict lookup `MODEL_ROUTING[category]`; every category used by the
source is a key, so the default `""` is never hit. -/
def routingFor (category : String) : String :=
  ((MODEL_ROUTING.lookup category).getD "")

/-- Python's `str.lower()`, character by character (the source's
messages and keywords are ASCII, where the two agree). -/
def pyLower (s : String) : String := String.mk (s.toList.map Char.toLower)

/-- Python's substring test `needle in hay` on strings, over the
character lists. -/
def strContains (hay needle : String) : Bool :=
  (List.range (hay.toList.length + 1)).any fun i =>
    needle.toList.isPrefixOf (hay.toList.drop i)

/-- `code_keywords` list local to `select_model_for_query`. -/
def code_keywords : List String :=
  ["code", "function", "class", "def ", "const ", "var ",
   "import", "error", "bug", "debug", "python", "javascript"]

/-- `select_model_for_query` of `providers.py`: length rule first, then a
case-insensitive keyword scan, else the general route. -/
def select_model_for_query (query : String) : String :=
  let query_lower := pyLower query
  let query_len := query.length
  if query_len < 50 then routingFor "fast"
  else if code_keywords.any (fun kw => strContains query_lower kw) then
    routingFor "code"
  else routingFor "general"

/-- **C4.** A message of fewer than 50 characters is always routed to the
`fast` route of the routing table, whatever keywords it contains. -/
theorem c4_short_message_fast (query : String) (h : query.length < 50) :
    select_model_for_query query = routingFor "fast" ∧
    routingFor "fast" = "gemini-2.5-flash-lite" := by
  constructor
  · simp [select_model_for_query, h]
  · rfl

/-- **C4 witness.** The 12-character message "fix this bug" contains the
keyword "bug" but is short, hence takes the fast route. -/
theorem c4_short_message_fast_witness :
    "fix this bug".length < 50 ∧
    (select_model_for_query "fix this bug" = routingFor "fast" ∧
     routingFor "fast" = "gemini-2.5-flash-lite") :=
  ⟨by decide, c4_short_message_fast "fix this bug" (by decide)⟩

/-- **C5.** A message of at least 50 characters whose lower-casing
contains some code keyword is routed to the `code` route of the routing
table. -/
theorem c5_code_keyword_routes_code (query : String)
    (hlen : 50 ≤ query.length)
    (hkw : code_keywords.any (fun kw => strContains (pyLower query) kw) = true) :
    select_model_for_query query = routingFor "code" ∧
    routingFor "code" = "gemini-2.5-flash" := by
  constructor
  · simp [select_model_for_query, Nat.not_lt.mpr hlen, hkw]
  · rfl

/-- **C5 witness.** The spec's concrete scenario: a 61-character message
containing "function" classifies as `code`. -/
theorem c5_code_keyword_routes_code_witness :
    50 ≤ ("Please review this function for memory leaks in the allocator" : String).length ∧
    code_keywords.any
      (fun kw => strContains (pyLower "Please review this function for memory leaks in the allocator") kw) = true ∧
    (select_model_for_query "Please review this function for memory leaks in the allocator" = routingFor "code" ∧
     routingFor "code" = "gemini-2.5-flash") :=
  ⟨by decide, by decide,
   c5_code_keyword_routes_code _ (by decide) (by decide)⟩

/-- One result of `LLMRouter.invoke` in `llm_router.py`: the returned pair
`(responseText, modelIdUsed)`, instrumented with `attempts`, the ids of
the models actually called (in call order), so that "no call is made" and
"which model is tried first" are provable statements. -/
structure InvokeResult where
  text : String
  model_used : String
  attempts : List String
  deriving Repr, DecidableEq

/-- The `LLMRouter` state after `_init_models`: `self.models`, reduced to
its ordered key list (the live handles themselves are modelled by the
call oracle passed to `invoke`). The map is never mutated after
initialization, which the embedding reflects by `invoke` taking the
router as a read-only argument and returning no new router. -/
structure LLMRouter where
  keys : List String
  deriving Repr, DecidableEq

/-- `_init_models` of `llm_router.py`: no key (Python falsy: `None` or the
empty string) leaves `self.models` empty; otherwise each catalog id whose
handle construction does not raise (oracle `initOk`) is added, in catalog
order. -/
def init_models (api_key : Option String) (initOk : String → Bool) : List String :=
  match api_key with
  | none => []
  | some k => if k = "" then [] else geminiModelIds.filter initOk

/-- Python's f-string rendering of the `last_error` variable (an
`Exception` renders as its message, `None` as "None"). -/
def optErrStr : Option String → String
  | none => "None"
  | some e => e

/-- The `for model_id in models_to_try` loop of `invoke`: skip ids with no
live handle, return on the first successful call, remember the last
error, and after exhaustion report it with sentinel id "error". -/
def try_models (call : String → String → Except String String)
    (message : String) (keys : List String) :
    List String → Option String → InvokeResult
  | [], last =>
    ⟨"All models failed. Last error: " ++ optErrStr last, "error", []⟩
  | id :: rest, last =>
    if keys.contains id then
      match call id message with
      | Except.ok text => ⟨text, id, [id]⟩
      | Except.error e =>
        let r := try_models call message keys rest (some e)
        ⟨r.text, r.model_used, id :: r.attempts⟩
    else try_models call message keys rest last

/-- Target-model resolution of `invoke`: "auto" goes through the
classifier, a live key is taken as is, anything else falls back to
`DEFAULT_MODEL`. -/
def resolveTarget (r : LLMRouter) (message mdl : String) : String :=
  if mdl = "auto" then select_model_for_query message
  else if r.keys.contains mdl then mdl else DEFAULT_MODEL

/-- The `models_to_try` list of `invoke`: the selected model first, then
every other key in insertion order (the comprehension filters the
selected model out of the tail). -/
def models_to_try (keys : List String) (selected : String) : List String :=
  selected :: keys.filter (fun m => m ≠ selected)

/-- `LLMRouter.invoke` of `llm_router.py`, with the external model calls
abstracted as an oracle `call : model id → message → Except error text`. -/
def invoke (r : LLMRouter) (call : String → String → Except String String)
    (message : String) (mdl : String) : InvokeResult :=
  if r.keys.isEmpty then
    ⟨"No models available. Check GOOGLE_API_KEY.", "none", []⟩
  else
    try_models call message r.keys
      (models_to_try r.keys (resolveTarget r message mdl)) none

/-- A model-call oracle on which every call fails, for concrete witnesses. -/
def stubFail : String → String → Except String String :=
  fun id _ => Except.error ("boom " ++ id)

/-- The ids actually attempted by the loop form, in order, a sublist of
the candidate list handed to it. -/
theorem try_models_attempts_sublist
    (call : String → String → Except String String)
    (message : String) (keys : List String) (l : List String) :
    ∀ last : Option String,
      (try_models call message keys l last).attempts.Sublist l := by
  induction l with
  | nil => intro last; simp [try_models]
  | cons id rest ih =>
    intro last
    unfold try_models
    cases h : keys.contains id with
    | true =>
      simp only [h, if_true]
      cases hc : call id message with
      | ok text => simp
      | error e => exact (ih (some e)).cons₂ id
    | false =>
      simp only [h, Bool.false_eq_true, if_false]
      exact (ih last).trans (List.sublist_cons_self id rest)

/-- The selected model occurs exactly once in the candidate list: the
tail comprehension filters it out. -/
theorem models_to_try_count_self (keys : List String) (selected : String) :
    (models_to_try keys selected).count selected = 1 := by
  unfold models_to_try
  rw [List.count_cons_self]
  have hnot : selected ∉ keys.filter (fun m => m ≠ selected) := by
    intro h
    rcases List.mem_filter.1 h with ⟨-, h2⟩
    simp at h2
  rw [List.count_eq_zero.2 hnot]

/-- **C2 counterexample.** With the full catalog as RouterState and the
request naming "gemini-2.5-flash" — which resolves to itself and is the
first key in insertion order — the candidate list contains the target
once, not twice: the tail comprehension `m != selected_model` removes it. -/
theorem c2_counterexample :
    resolveTarget ⟨geminiModelIds⟩ "hello" "gemini-2.5-flash" = "gemini-2.5-flash" ∧
    geminiModelIds.head? = some "gemini-2.5-flash" ∧
    ¬ (models_to_try geminiModelIds "gemini-2.5-flash").count "gemini-2.5-flash" = 2 ∧
    (models_to_try geminiModelIds "gemini-2.5-flash").count "gemini-2.5-flash" = 1 ∧
    (invoke ⟨geminiModelIds⟩ stubFail "hello" "gemini-2.5-flash").attempts.count
      "gemini-2.5-flash" = 1 := by
  decide

/-- **C2 (amended).** For every RouterState and every resolved target,
the candidate list built by `invoke` contains the target exactly once
(even when the target is also the first key in insertion order), and no
invocation ever attempts the resolved target model a second time. -/
theorem c2_target_attempted_at_most_once (keys : List String)
    (selected : String) (call : String → String → Except String String)
    (message mdl : String) :
    (models_to_try keys selected).count selected = 1 ∧
    (invoke ⟨keys⟩ call message mdl).attempts.count
      (resolveTarget ⟨keys⟩ message mdl) ≤ 1 := by
  refine ⟨models_to_try_count_self keys selected, ?_⟩
  unfold invoke
  cases h : (⟨keys⟩ : LLMRouter).keys.isEmpty with
  | true => simp [h]
  | false =>
    simp only [h, Bool.false_eq_true, if_false]
    have hs := try_models_attempts_sublist call message keys
      (models_to_try keys (resolveTarget ⟨keys⟩ message mdl)) none
    exact le_trans (hs.count_le _) (models_to_try_count_self keys _).le

/-- **C3.** With no API key (unset or empty), `_init_models` builds an
empty RouterState, and `invoke` on an empty RouterState returns the fixed
diagnostic with sentinel model id "none" without attempting any call. -/
theorem c3_empty_router_diagnostic
    (apiKey : Option String) (initOk : String → Bool)
    (call : String → String → Except String String)
    (message mdl : String) (r : LLMRouter)
    (hkey : apiKey = none ∨ apiKey = some "")
    (hr : r.keys = init_models apiKey initOk) :
    r.keys = [] ∧
    invoke r call message mdl =
      ⟨"No models available. Check GOOGLE_API_KEY.", "none", []⟩ := by
  have hempty : r.keys = [] := by
    rcases hkey with h | h <;> subst h <;> simpa [init_models] using hr
  refine ⟨hempty, ?_⟩
  unfold invoke
  simp [hempty]

/-- **C3 witness.** The empty router answers the diagnostic pair for a
concrete message even though the call oracle would have succeeded. -/
theorem c3_empty_router_diagnostic_witness :
    (⟨[]⟩ : LLMRouter).keys = [] ∧
    invoke ⟨[]⟩ (fun _ _ => Except.ok "ready") "hi" "auto" =
      ⟨"No models available. Check GOOGLE_API_KEY.", "none", []⟩ :=
  c3_empty_router_diagnostic none (fun _ => true)
    (fun _ _ => Except.ok "ready") "hi" "auto" ⟨[]⟩ (Or.inl rfl) rfl

/-- **C7.** For a request t with a model other than "auto": a model that
is a key of RouterState resolves to itself and is the first model
attempted; any other value resolves to the fixed `DEFAULT_MODEL`,
whether or not that default is itself a key. -/
theorem c7_requested_model_resolution
    (r : LLMRouter) (call : String → String → Except String String)
    (message mdl : String) (hauto : mdl ≠ "auto") :
    (r.keys.contains mdl = true →
      resolveTarget r message mdl = mdl ∧
      (invoke r call message mdl).attempts.head? = some mdl) ∧
    (r.keys.contains mdl = false →
      resolveTarget r message mdl = DEFAULT_MODEL) := by
  constructor
  · intro hmem
    have hmem' : mdl ∈ r.keys := by simpa using hmem
    have hres : resolveTarget r message mdl = mdl := by
      simp [resolveTarget, hauto, hmem']
    refine ⟨hres, ?_⟩
    have hne : r.keys.isEmpty = false := by
      cases hk : r.keys with
      | nil => rw [hk] at hmem; simp at hmem
      | cons a l => rfl
    unfold invoke
    simp only [hne, Bool.false_eq_true, if_false, hres]
    unfold models_to_try try_models
    simp only [hmem, if_true]
    cases hc : call mdl message with
    | ok text => simp
    | error e => simp
  · intro hmem
    have hmem' : mdl ∉ r.keys := by simpa using hmem
    simp [resolveTarget, hauto, hmem']

/-- **C7 witness.** With RouterState keys ["gemini-2.5-flash",
"gemini-2.5-flash-lite"], requesting the live "gemini-2.5-flash-lite"
attempts it first (even under a failing oracle), while requesting the
garbage id "gemma-9-900b" resolves to `DEFAULT_MODEL`. -/
theorem c7_requested_model_resolution_witness :
    resolveTarget ⟨["gemini-2.5-flash", "gemini-2.5-flash-lite"]⟩ "hello"
        "gemini-2.5-flash-lite" = "gemini-2.5-flash-lite" ∧
    (invoke ⟨["gemini-2.5-flash", "gemini-2.5-flash-lite"]⟩ stubFail "hello"
        "gemini-2.5-flash-lite").attempts.head? = some "gemini-2.5-flash-lite" ∧
    resolveTarget ⟨["gemini-2.5-flash", "gemini-2.5-flash-lite"]⟩ "hello"
        "gemma-9-900b" = DEFAULT_MODEL :=
  ⟨((c7_requested_model_resolution ⟨["gemini-2.5-flash", "gemini-2.5-flash-lite"]⟩
      stubFail "hello" "gemini-2.5-flash-lite" (by decide)).1 (by decide)).1,
   ((c7_requested_model_resolution ⟨["gemini-2.5-flash", "gemini-2.5-flash-lite"]⟩
      stubFail "hello" "gemini-2.5-flash-lite" (by decide)).1 (by decide)).2,
   (c7_requested_model_resolution ⟨["gemini-2.5-flash", "gemini-2.5-flash-lite"]⟩
      stubFail "hello" "gemma-9-900b" (by decide)).2 (by decide)⟩

/-- **C8.** Every key of a RouterState produced by `_init_models` is a
key of the `GEMINI_MODELS` catalog; since no operation returns a modified
RouterState, the invariant holds for the process lifetime. -/
theorem c8_router_keys_in_catalog (apiKey : Option String)
    (initOk : String → Bool) (k : String)
    (hk : k ∈ init_models apiKey initOk) :
    k ∈ geminiModelIds := by
  cases apiKey with
  | none => simp [init_models] at hk
  | some s =>
    by_cases hs : s = "" <;> simp [init_models, hs, List.mem_filter] at hk
    exact hk.1

/-- **C8 witness.** A concrete initialized key, "gemma-3-4b", is a
catalog key. -/
theorem c8_router_keys_in_catalog_witness :
    "gemma-3-4b" ∈ init_models (some "key") (fun _ => true) ∧
    "gemma-3-4b" ∈ geminiModelIds :=
  ⟨by decide,
   c8_router_keys_in_catalog (some "key") (fun _ => true) "gemma-3-4b" (by decide)⟩

/-- A non-empty list has a last element. -/
theorem exists_getLast_cons (as : List String) :
    ∀ a : String, ∃ x, (a :: as).getLast? = some x := by
  induction as with
  | nil => intro a; exact ⟨a, rfl⟩
  | cons b bs ih =>
    intro a
    rw [List.getLast?_cons_cons]
    exact ih b

/-- When every live model's call fails, the loop reports sentinel
"error"; if it attempted nothing, every candidate was dead and the text
renders the incoming `last` value, and otherwise the text embeds the
error of the last id attempted. -/
theorem try_models_all_fail
    (call : String → String → Except String String) (message : String)
    (keys : List String)
    (hfail : ∀ id ∈ keys, ∃ e, call id message = Except.error e)
    (l : List String) :
    ∀ last : Option String,
      (try_models call message keys l last).model_used = "error" ∧
      ((try_models call message keys l last).attempts = [] →
        (try_models call message keys l last).text =
          "All models failed. Last error: " ++ optErrStr last ∧
        ∀ id ∈ l, keys.contains id = false) ∧
      (∀ lastId,
        (try_models call message keys l last).attempts.getLast? = some lastId →
        ∃ e, call lastId message = Except.error e ∧
          (try_models call message keys l last).text =
            "All models failed. Last error: " ++ e) := by
  induction l with
  | nil =>
    intro last
    refine ⟨rfl, fun _ => ⟨rfl, by simp⟩, ?_⟩
    intro lastId h
    simp [try_models] at h
  | cons id rest ih =>
    intro last
    cases h : keys.contains id with
    | false =>
      have hrw : try_models call message keys (id :: rest) last =
          try_models call message keys rest last := by
        simp only [try_models, h, Bool.false_eq_true, if_false]
      rw [hrw]
      obtain ⟨ih1, ih2, ih3⟩ := ih last
      refine ⟨ih1, ?_, ih3⟩
      intro hemp
      obtain ⟨ht, hall⟩ := ih2 hemp
      refine ⟨ht, ?_⟩
      intro id' hid'
      rcases List.mem_cons.1 hid' with rfl | hmem
      · exact h
      · exact hall id' hmem
    | true =>
      have hidmem : id ∈ keys := by simpa using h
      obtain ⟨e, hc⟩ := hfail id hidmem
      have hrw : try_models call message keys (id :: rest) last =
          ⟨(try_models call message keys rest (some e)).text,
           (try_models call message keys rest (some e)).model_used,
           id :: (try_models call message keys rest (some e)).attempts⟩ := by
        simp only [try_models, h, if_true, hc]
      rw [hrw]
      obtain ⟨ih1, ih2, ih3⟩ := ih (some e)
      refine ⟨ih1, ?_, ?_⟩
      · intro hemp
        simp at hemp
      · intro lastId hlast
        have hlast' :
            (id :: (try_models call message keys rest (some e)).attempts).getLast?
              = some lastId := hlast
        cases hr : (try_models call message keys rest (some e)).attempts with
        | nil =>
          rw [hr] at hlast'
          have hid : lastId = id := by simpa using hlast'.symm
          subst hid
          obtain ⟨ht, -⟩ := ih2 hr
          exact ⟨e, hc, by simpa [optErrStr] using ht⟩
        | cons a as =>
          rw [hr] at hlast'
          rw [List.getLast?_cons_cons] at hlast'
          exact ih3 lastId (by rw [hr]; exact hlast')

/-- **C6.** On a non-empty RouterState where every live model's call
fails, `invoke` returns sentinel model id "error" and a diagnostic text
embedding the message of the last error encountered (the error of the
last model attempted). -/
theorem c6_all_models_fail (r : LLMRouter)
    (call : String → String → Except String String)
    (message mdl : String)
    (hne : r.keys ≠ [])
    (hfail : ∀ id ∈ r.keys, ∃ e, call id message = Except.error e) :
    (invoke r call message mdl).model_used = "error" ∧
    ∃ lastId e,
      (invoke r call message mdl).attempts.getLast? = some lastId ∧
      call lastId message = Except.error e ∧
      (invoke r call message mdl).text =
        "All models failed. Last error: " ++ e := by
  have hem : r.keys.isEmpty = false := by
    cases hk : r.keys with
    | nil => exact absurd hk hne
    | cons a l => rfl
  unfold invoke
  simp only [hem, Bool.false_eq_true, if_false]
  obtain ⟨h1, h2, h3⟩ := try_models_all_fail call message r.keys hfail
    (models_to_try r.keys (resolveTarget r message mdl)) none
  refine ⟨h1, ?_⟩
  cases hat : (try_models call message r.keys
      (models_to_try r.keys (resolveTarget r message mdl)) none).attempts with
  | nil =>
    exfalso
    obtain ⟨-, hall⟩ := h2 hat
    obtain ⟨k, hkmem⟩ : ∃ k, k ∈ r.keys := by
      cases hk : r.keys with
      | nil => exact absurd hk hne
      | cons a ks => exact ⟨a, by simp⟩
    have hkcand : k ∈ models_to_try r.keys (resolveTarget r message mdl) := by
      unfold models_to_try
      by_cases hkt : k = resolveTarget r message mdl
      · simp [hkt]
      · simp [List.mem_filter, hkmem, hkt]
    have hnk : k ∉ r.keys := by simpa using hall k hkcand
    exact hnk hkmem
  | cons a as =>
    obtain ⟨lastId, hl⟩ := exists_getLast_cons as a
    have hl' : (try_models call message r.keys
        (models_to_try r.keys (resolveTarget r message mdl)) none).attempts.getLast?
          = some lastId := by rw [hat]; exact hl
    obtain ⟨e, hcall, htext⟩ := h3 lastId hl'
    exact ⟨lastId, e, hl, hcall, htext⟩

/-- **C6 witness.** With two live models and an always-failing oracle, a
concrete invocation returns the "error" sentinel and the last attempted
model's error text. -/
theorem c6_all_models_fail_witness :
    (invoke ⟨["gemini-2.5-flash", "gemma-3-1b"]⟩ stubFail "hello" "auto").model_used
      = "error" ∧
    (invoke ⟨["gemini-2.5-flash", "gemma-3-1b"]⟩ stubFail "hello" "auto").attempts.getLast?
      = some "gemma-3-1b" ∧
    stubFail "gemma-3-1b" "hello" = Except.error "boom gemma-3-1b" ∧
    (invoke ⟨["gemini-2.5-flash", "gemma-3-1b"]⟩ stubFail "hello" "auto").text
      = "All models failed. Last error: boom gemma-3-1b" :=
  ⟨(c6_all_models_fail ⟨["gemini-2.5-flash", "gemma-3-1b"]⟩ stubFail "hello" "auto"
      (by decide) (fun id _ => ⟨"boom " ++ id, rfl⟩)).1,
   by decide, rfl, by decide⟩

/-- A row of the `chat_messages` table (`ChatMessage` model of
`fastapi_llm.py`); timestamps are abstracted to `Nat` instants. -/
structure ChatMessageRow where
  id : Nat
  user_message : String
  ai_response : String
  timestamp : Nat
  ip_address : String
  session_id : Option String := none
  deriving Repr, DecidableEq

/-- `ChatRequest` pydantic model of `fastapi_llm.py`: its only declared
field is `message`. -/
structure ChatRequest where
  message : String
  deriving Repr, DecidableEq

/-- `ChatResponse` pydantic model of `fastapi_llm.py`: `user_message`,
`ai_response`, `timestamp`. -/
structure ChatResponse where
  user_message : String
  ai_response : String
  timestamp : Nat
  deriving Repr, DecidableEq

/-- The JSON object the framework serializes for a `ChatResponse`: one
key per declared field, in declaration order. -/
def chatResponseJson (r : ChatResponse) : List (String × String) :=
  [("user_message", r.user_message),
   ("ai_response", r.ai_response),
   ("timestamp", toString r.timestamp)]

/-- `get_ai_response` of `fastapi_llm.py`: dispatch on the `AI_PROVIDER`
environment variable (default "mock", lower-cased); only the value
"huggingface" calls the external provider (oracle `hf`), every other
value echoes "Mock: " plus the message. -/
def get_ai_response (ai_provider : Option String) (hf : String → String)
    (message : String) : String :=
  let provider := pyLower (ai_provider.getD "mock")
  if provider = "huggingface" then hf message
  else "Mock: " ++ message

/-- The `POST /chat` handler `chat` of `fastapi_llm.py`: compute the AI
reply, persist a row (server-assigned id and timestamp), return the
`ChatResponse`. The database session becomes the row list; add/commit/
refresh become appending the new row. -/
def chat (ai_provider : Option String) (hf : String → String)
    (request : ChatRequest) (ip : String) (now : Nat) (nextId : Nat)
    (db : List ChatMessageRow) : ChatResponse × List ChatMessageRow :=
  let ai_response := get_ai_response ai_provider hf request.message
  let record : ChatMessageRow :=
    { id := nextId, user_message := request.message,
      ai_response := ai_response, timestamp := now,
      ip_address := ip, session_id := none }
  ({ user_message := request.message, ai_response := ai_response,
     timestamp := now }, db ++ [record])

/-- Insertion step of ordering rows by timestamp, newest first (the
`ORDER BY timestamp DESC` of the history query). -/
def insertByTimestampDesc (r : ChatMessageRow) :
    List ChatMessageRow → List ChatMessageRow
  | [] => [r]
  | x :: xs =>
    if x.timestamp ≤ r.timestamp then r :: x :: xs
    else x :: insertByTimestampDesc r xs

/-- Rows ordered by timestamp, newest first. -/
def sortByTimestampDesc : List ChatMessageRow → List ChatMessageRow
  | [] => []
  | x :: xs => insertByTimestampDesc x (sortByTimestampDesc xs)

/-- The `GET /history` handler `get_historija` of `fastapi_llm.py`:
filter the table to the caller's ip, order by timestamp descending, take
`limit` rows. -/
def get_historija (ip : String) (limit : Nat)
    (db : List ChatMessageRow) : List ChatMessageRow :=
  (sortByTimestampDesc (db.filter (fun r => r.ip_address = ip))).take limit

/-- The `DELETE /history` handler `obrisi_historiju` of `fastapi_llm.py`:
delete the caller's rows, returning the deleted count and the remaining
table. -/
def obrisi_historiju (ip : String) (db : List ChatMessageRow) :
    Nat × List ChatMessageRow :=
  ((db.filter (fun r => r.ip_address = ip)).length,
   db.filter (fun r => ¬ r.ip_address = ip))

/-- **C9.** Purging an ip and then listing that ip's history yields the
empty sequence, whatever the table contents and the limit. -/
theorem c9_purge_then_list_empty (db : List ChatMessageRow) (ip : String)
    (limit : Nat) :
    get_historija ip limit (obrisi_historiju ip db).2 = [] := by
  unfold get_historija obrisi_historiju
  have h : ((db.filter (fun r => ¬ r.ip_address = ip)).filter
      (fun r => r.ip_address = ip)) = [] := by
    induction db with
    | nil => rfl
    | cons x xs ih =>
      by_cases hx : x.ip_address = ip
      · simp [List.filter_cons, hx, ih]
      · simp [List.filter_cons, hx, ih]
  rw [h]
  simp [sortByTimestampDesc]

/-- Under an unset or (case-insensitively) "mock" `AI_PROVIDER`, the
provider dispatch takes the mock branch. -/
theorem get_ai_response_mock (ai_provider : Option String)
    (hf : String → String) (message : String)
    (h : ai_provider = none ∨ ∃ s, ai_provider = some s ∧ pyLower s = "mock") :
    get_ai_response ai_provider hf message = "Mock: " ++ message := by
  rcases h with h | ⟨s, hs, hlow⟩
  · subst h; rfl
  · subst hs
    unfold get_ai_response
    simp only [Option.getD_some, hlow]
    rfl

/-- **C10.** With `AI_PROVIDER` unset or equal to "mock" up to case (the
default configuration), `get_ai_response` is the mock echo "Mock: " ++
message, the `ai_response` field of every `POST /chat` reply equals that
echo, and the result does not depend on the external-provider oracle (no
provider call is made). -/
theorem c10_default_mock_echo (ai_provider : Option String)
    (hf hfOther : String → String) (request : ChatRequest) (ip : String)
    (now nextId : Nat) (db : List ChatMessageRow)
    (h : ai_provider = none ∨ ∃ s, ai_provider = some s ∧ pyLower s = "mock") :
    get_ai_response ai_provider hf request.message =
      "Mock: " ++ request.message ∧
    (chat ai_provider hf request ip now nextId db).1.ai_response =
      "Mock: " ++ request.message ∧
    get_ai_response ai_provider hf request.message =
      get_ai_response ai_provider hfOther request.message := by
  have hm := get_ai_response_mock ai_provider hf request.message h
  have hm' := get_ai_response_mock ai_provider hfOther request.message h
  exact ⟨hm, by simpa [chat] using hm, hm.trans hm'.symm⟩

/-- **C10 witness.** The default configuration (variable unset) echoes
"Mock: hi" for message "hi", in `get_ai_response` and in the persisted
chat reply, independently of the external oracle. -/
theorem c10_default_mock_echo_witness :
    ((none : Option String) = none ∨
      ∃ s, (none : Option String) = some s ∧ pyLower s = "mock") ∧
    get_ai_response none (fun _ => "HF") "hi" = "Mock: hi" ∧
    (chat none (fun _ => "HF") ⟨"hi"⟩ "1.2.3.4" 7 1 []).1.ai_response =
      "Mock: hi" ∧
    get_ai_response none (fun _ => "HF") "hi" =
      get_ai_response none (fun _ => "other") "hi" :=
  ⟨Or.inl rfl,
   c10_default_mock_echo none (fun _ => "HF") (fun _ => "other") ⟨"hi"⟩
     "1.2.3.4" 7 1 [] (Or.inl rfl)⟩

/-- **C1 counterexample.** For the concrete request message "hi" in the
default configuration the handler's reply is the mock echo, which is not
a `Router.invoke` result (the default router, with no API key, answers
the no-models diagnostic), and the serialized `ChatResponse` carries no
"model_used" key at all. -/
theorem c1_counterexample :
    (chat none (fun m => "HF: " ++ m) ⟨"hi"⟩ "1.2.3.4" 7 1 []).1.ai_response =
      "Mock: hi" ∧
    (invoke ⟨init_models none (fun _ => true)⟩ stubFail "hi" "auto").text =
      "No models available. Check GOOGLE_API_KEY." ∧
    ("Mock: hi" : String) ≠ "No models available. Check GOOGLE_API_KEY." ∧
    ((chatResponseJson
        (chat none (fun m => "HF: " ++ m) ⟨"hi"⟩ "1.2.3.4" 7 1 []).1).map
      Prod.fst).contains "model_used" = false := by
  refine ⟨rfl, by decide, by decide, by decide⟩

/-- **C1 (amended).** Every `POST /chat` reply is produced by
`get_ai_response` on the request's message — `Router.invoke` plays no
part in the handler — the request model has no model field (its only
field is `message`), and the serialized response's keys are exactly
user_message, ai_response and timestamp, with no `model_used`. -/
theorem c1_chat_uses_get_ai_response (ai_provider : Option String)
    (hf : String → String) (request : ChatRequest) (ip : String)
    (now nextId : Nat) (db : List ChatMessageRow) :
    (chat ai_provider hf request ip now nextId db).1 =
      { user_message := request.message,
        ai_response := get_ai_response ai_provider hf request.message,
        timestamp := now } ∧
    (chatResponseJson (chat ai_provider hf request ip now nextId db).1).map
        Prod.fst = ["user_message", "ai_response", "timestamp"] := by
  exact ⟨rfl, rfl⟩
